import Mathlib

/-!
Shallow embedding of `src/server/concepts/location.ts`: the `EventConcept`
document-store concept (create/update/delete, RSVP transitions, tag-list
mutators) and the `LocationConcept` geocoding wrapper.

Modelling conventions:
* Mongo `ObjectId` values are modelled as `Nat` (opaque identities with
  decidable equality; `a.toString() === b.toString()` in the source is
  identity equality here).
* JavaScript array operations are modelled with their ECMAScript
  semantics: `push` appends, `indexOf` returns the first index or `-1`,
  `splice(start, 1)` clamps a negative `start` to `length + start`
  (floored at 0) and removes one element there, `includes` is membership.
  `String.prototype.includes` is substring containment.
* Each concept method reads one record by `_id`; the store is modelled as
  the `Option EventDoc` that `readOne({_id})` yields, and a method returns
  `Except Err` of the record it persists.
* The source invokes the async guards `isNotHost` / `isInterested` /
  `isAttending` *without* `await` inside the RSVP methods, so a rejection
  of those guard promises never propagates into the calling method: the
  control flow of the caller continues regardless.  The guards are embedded as
  standalone functions, and the RSVP method bodies do not consult them,
  matching the executed control flow of the source.
-/

/-- Error kinds of `errors.ts`: `NotFoundError` and `NotAllowedError`
(messages are dropped; claims only ever distinguish the kind). -/
inductive Err where
  | notFound
  | notAllowed
deriving DecidableEq, Repr

/-- JS `Array.prototype.indexOf` (first index of an equal element, `-1`
when absent), as an `Int` so that the `-1` sentinel flows into `splice`
exactly as in the source. -/
def jsIndexOfFrom {α : Type} [DecidableEq α] : List α → α → Nat → Int
  | [], _, _ => -1
  | x :: rest, a, i => if x = a then (i : Int) else jsIndexOfFrom rest a (i + 1)

/-- JS `xs.indexOf(a)`. -/
def jsIndexOf {α : Type} [DecidableEq α] (xs : List α) (a : α) : Int :=
  jsIndexOfFrom xs a 0

/-- JS `xs.splice(start, 1)` (the resulting array): a negative `start`
counts from the end (`length + start`, floored at 0); one element at the
actual start index is removed (none when the index is past the end). -/
def jsSpliceOne {α : Type} (xs : List α) (start : Int) : List α :=
  let len : Int := (xs.length : Int)
  let actual : Nat := (if start < 0 then max (len + start) 0 else min start len).toNat
  xs.take actual ++ xs.drop (actual + 1)

/-- JS `xs.includes(a)` for arrays: membership. -/
def jsIncludes {α : Type} [DecidableEq α] (xs : List α) (a : α) : Bool :=
  xs.any (fun x => decide (x = a))

/-- Helper for substring search: does `s` start with `pat`? -/
def charsStartWith : List Char → List Char → Bool
  | _, [] => true
  | [], _ :: _ => false
  | a :: as, b :: bs => a == b && charsStartWith as bs

/-- Helper for substring search: does `pat` occur inside `s`? -/
def charsContain : List Char → List Char → Bool
  | [], pat => charsStartWith [] pat
  | a :: rest, pat => charsStartWith (a :: rest) pat || charsContain rest pat

/-- JS `s.includes(t)` for strings: substring containment. -/
def jsStrIncludes (s t : String) : Bool :=
  charsContain s.data t.data

/-- The `EventDoc` record interface (BaseDoc bookkeeping fields omitted;
no claim concerns `dateUpdated` ordering). -/
structure EventDoc where
  host : Nat
  title : String
  description : String
  location : String
  ageReq : Int
  capacity : Int
  topics : List String
  amenities : List String
  accommodations : List String
  interested : List Nat
  attending : List Nat
deriving DecidableEq, Repr

namespace EventConcept

/-- `create(host, title, description, location, ageReq, capacity)`: the
record written by `createOne` — all five collection fields empty. -/
def create (host : Nat) (title description location : String)
    (ageReq capacity : Int) : EventDoc :=
  { host := host, title := title, description := description,
    location := location, ageReq := ageReq, capacity := capacity,
    topics := [], amenities := [], accommodations := [],
    interested := [], attending := [] }

/-- `isNotHost(host, _id)` applied to the record read for `_id`.  Note the
condition in the source: it throws `NotAllowedError("Person is a host.")` when
`event.host.toString() !== host.toString()`, i.e. when the given user is
NOT the host, and succeeds when the user IS the host. -/
def isNotHost (host : Nat) (ev : Option EventDoc) : Except Err Unit :=
  match ev with
  | none => Except.error Err.notFound
  | some event =>
    if event.host ≠ host then Except.error Err.notAllowed
    else Except.ok ()

/-- `isInterested(person, _id)`: `NotFoundError` when the interested list
does not include the person. -/
def isInterested (person : Nat) (ev : Option EventDoc) : Except Err Unit :=
  match ev with
  | none => Except.error Err.notFound
  | some event =>
    if !(jsIncludes event.interested person) then Except.error Err.notFound
    else Except.ok ()

/-- `isAttending(person, _id)`: `NotFoundError` when the attending list
does not include the person. -/
def isAttending (person : Nat) (ev : Option EventDoc) : Except Err Unit :=
  match ev with
  | none => Except.error Err.notFound
  | some event =>
    if !(jsIncludes event.attending person) then Except.error Err.notFound
    else Except.ok ()

/-- `indicateInterest(person, _id)`.  The `this.isNotHost(...)` call is not
awaited in the source, so its outcome does not affect this method; the body
pushes onto `interested` and splices `person` out of `attending` when
present, then persists both lists. -/
def indicateInterest (person : Nat) (ev : Option EventDoc) : Except Err EventDoc :=
  match ev with
  | none => Except.error Err.notFound
  | some event =>
    let interested := event.interested ++ [person]
    let attend_idx := jsIndexOf event.attending person
    let attending :=
      if attend_idx ≠ -1 then jsSpliceOne event.attending attend_idx
      else event.attending
    Except.ok { event with interested := interested, attending := attending }

/-- `removeInterest(person, _id)`.  Neither `this.isNotHost` nor
`this.isInterested` is awaited, so the body always runs: it splices
`interested` at `interested.indexOf(person)` unconditionally (at `-1`,
JS `splice` removes the LAST element), and splices `attending` only when
the person is found there. -/
def removeInterest (person : Nat) (ev : Option EventDoc) : Except Err EventDoc :=
  match ev with
  | none => Except.error Err.notFound
  | some event =>
    let interest_idx := jsIndexOf event.interested person
    let interested := jsSpliceOne event.interested interest_idx
    let attend_idx := jsIndexOf event.attending person
    let attending :=
      if attend_idx ≠ -1 then jsSpliceOne event.attending attend_idx
      else event.attending
    Except.ok { event with interested := interested, attending := attending }

/-- `indicateAttendance(person, _id)`.  The body pushes onto `attending`
and then, when `person` occurs in `interested`, splices the ATTENDING list
at `interested.indexOf(person)` (the source says
`attending.splice(interest_idx, 1)`); the `interested` field itself is
never mutated by this method. -/
def indicateAttendance (person : Nat) (ev : Option EventDoc) : Except Err EventDoc :=
  match ev with
  | none => Except.error Err.notFound
  | some event =>
    let attending0 := event.attending ++ [person]
    let interest_idx := jsIndexOf event.interested person
    let attending :=
      if interest_idx ≠ -1 then jsSpliceOne attending0 interest_idx
      else attending0
    Except.ok { event with attending := attending }

/-- `removeAttendance(person, _id)`.  `this.isAttending` is not awaited;
the body computes `attend_idx` but then does `attending.push(person)`
(push, not splice), and when `person` occurs in `interested` it splices
the ATTENDING list at `interest_idx`. -/
def removeAttendance (person : Nat) (ev : Option EventDoc) : Except Err EventDoc :=
  match ev with
  | none => Except.error Err.notFound
  | some event =>
    let attend_idx := jsIndexOf event.attending person
    let attending0 := event.attending ++ [person]
    let interest_idx := jsIndexOf event.interested person
    let attending :=
      if interest_idx ≠ -1 then jsSpliceOne attending0 interest_idx
      else attending0
    let _ := attend_idx
    Except.ok { event with attending := attending }

/-- `addTopic(_id, topic)`.  The guard in the source is
`if (topic.includes(topic))` — the STRING tested against itself, not the
`topics` array. -/
def addTopic (ev : Option EventDoc) (topic : String) : Except Err EventDoc :=
  match ev with
  | none => Except.error Err.notFound
  | some event =>
    if jsStrIncludes topic topic then Except.error Err.notAllowed
    else Except.ok { event with topics := event.topics ++ [topic] }

/-- `removeTopic(_id, topic)`.  The guard is `if (!topic.includes(topic))`
(string against itself); the splice uses `topics.indexOf(topic)`, which is
`-1` when absent. -/
def removeTopic (ev : Option EventDoc) (topic : String) : Except Err EventDoc :=
  match ev with
  | none => Except.error Err.notFound
  | some event =>
    if !(jsStrIncludes topic topic) then Except.error Err.notAllowed
    else
      let topic_idx := jsIndexOf event.topics topic
      Except.ok { event with topics := jsSpliceOne event.topics topic_idx }

/-- `addAmenity(_id, amenity)` (this one checks the collection). -/
def addAmenity (ev : Option EventDoc) (amenity : String) : Except Err EventDoc :=
  match ev with
  | none => Except.error Err.notFound
  | some event =>
    if jsIncludes event.amenities amenity then Except.error Err.notAllowed
    else Except.ok { event with amenities := event.amenities ++ [amenity] }

/-- `removeAmenity(_id, amenity)`.  The guard is
`if (!amenity.includes(amenity))` — the string against itself. -/
def removeAmenity (ev : Option EventDoc) (amenity : String) : Except Err EventDoc :=
  match ev with
  | none => Except.error Err.notFound
  | some event =>
    if !(jsStrIncludes amenity amenity) then Except.error Err.notAllowed
    else
      let amenity_idx := jsIndexOf event.amenities amenity
      Except.ok { event with amenities := jsSpliceOne event.amenities amenity_idx }

/-- `removeAccommodation(_id, accommodation)`.  The guard is
`if (!accommodation.includes(accommodation))` — the string against
itself. -/
def removeAccommodation (ev : Option EventDoc) (accommodation : String) :
    Except Err EventDoc :=
  match ev with
  | none => Except.error Err.notFound
  | some event =>
    if !(jsStrIncludes accommodation accommodation) then Except.error Err.notAllowed
    else
      let accommodation_idx := jsIndexOf event.accommodations accommodation
      let accommodations := jsSpliceOne event.accommodations accommodation_idx
      Except.ok { event with accommodations := accommodations }

/-- The field names of `Partial<EventDoc>` (the keys `for (const key in
update)` can range over). -/
inductive EventField where
  | host
  | title
  | description
  | location
  | ageReq
  | capacity
  | topics
  | amenities
  | accommodations
  | interested
  | attending
deriving DecidableEq, Repr

/-- A `Partial<EventDoc>` value: each field either absent or present. -/
structure EventUpdate where
  host : Option Nat := none
  title : Option String := none
  description : Option String := none
  location : Option String := none
  ageReq : Option Int := none
  capacity : Option Int := none
  topics : Option (List String) := none
  amenities : Option (List String) := none
  accommodations : Option (List String) := none
  interested : Option (List Nat) := none
  attending : Option (List Nat) := none
deriving DecidableEq, Repr

/-- The keys present in a `Partial<EventDoc>` (what `for (const key in
update)` iterates over). -/
def keysOf (u : EventUpdate) : List EventField :=
  (if u.host.isSome then [EventField.host] else []) ++
  (if u.title.isSome then [EventField.title] else []) ++
  (if u.description.isSome then [EventField.description] else []) ++
  (if u.location.isSome then [EventField.location] else []) ++
  (if u.ageReq.isSome then [EventField.ageReq] else []) ++
  (if u.capacity.isSome then [EventField.capacity] else []) ++
  (if u.topics.isSome then [EventField.topics] else []) ++
  (if u.amenities.isSome then [EventField.amenities] else []) ++
  (if u.accommodations.isSome then [EventField.accommodations] else []) ++
  (if u.interested.isSome then [EventField.interested] else []) ++
  (if u.attending.isSome then [EventField.attending] else [])

/-- `const prohibitedUpdates = ["host"]` in `sanitizeUpdate`. -/
def prohibitedUpdates : List EventField := [EventField.host]

/-- `sanitizeUpdate(update)`: throws `NotAllowedError` on the first key of
the partial that occurs in `prohibitedUpdates`. -/
def sanitizeUpdate (u : EventUpdate) : Except Err Unit :=
  if (keysOf u).any (fun k => decide (k ∈ prohibitedUpdates)) then
    Except.error Err.notAllowed
  else Except.ok ()

/-- Modelled from the spec: `DocCollection.updateOne` of
`src/server/framework/doc.ts` is not under `src/`; per spec section 6 the
storage boundary offers `updateOne(filter, partialFields) -> ack`, a
field-level merge into the matched record with no error on an absent
record.  This applies the merge to one record. -/
def applyUpdate (e : EventDoc) (u : EventUpdate) : EventDoc :=
  { host := u.host.getD e.host,
    title := u.title.getD e.title,
    description := u.description.getD e.description,
    location := u.location.getD e.location,
    ageReq := u.ageReq.getD e.ageReq,
    capacity := u.capacity.getD e.capacity,
    topics := u.topics.getD e.topics,
    amenities := u.amenities.getD e.amenities,
    accommodations := u.accommodations.getD e.accommodations,
    interested := u.interested.getD e.interested,
    attending := u.attending.getD e.attending }

/-- Modelled from the spec: the store-side effect of
`updateOne({_id}, partialFields)` on the record at `_id` — merge when the
record exists, no-op (still an ack, no error) when it does not. -/
def updateOne (ev : Option EventDoc) (u : EventUpdate) : Option EventDoc :=
  match ev with
  | none => none
  | some e => some (applyUpdate e u)

/-- Modelled from the spec: the store-side effect of `deleteOne({_id})` —
the record at `_id` is gone afterwards; an absent record is an ack, not an
error (spec section 6: `deleteOne(filter) -> ack`). -/
def deleteOne (_ev : Option EventDoc) : Option EventDoc := none

/-- `update(_id, update)`: sanitize, then `updateOne`; returns the record
stored at `_id` after the call.  No existence check is performed by the
method itself. -/
def update (ev : Option EventDoc) (u : EventUpdate) : Except Err (Option EventDoc) :=
  match sanitizeUpdate u with
  | Except.error e => Except.error e
  | Except.ok _ => Except.ok (updateOne ev u)

/-- `delete(_id)`: `deleteOne`, no existence check; returns the record
stored at `_id` after the call. -/
def delete (ev : Option EventDoc) : Except Err (Option EventDoc) :=
  Except.ok (deleteOne ev)

/-- The record stored at `_id` after `update` returns or throws: a thrown
`sanitizeUpdate` error happens before `updateOne` is issued, so the stored
record is unchanged on the error path. -/
def updateState (ev : Option EventDoc) (u : EventUpdate) : Option EventDoc :=
  match update ev u with
  | Except.ok s => s
  | Except.error _ => ev

/-- One RSVP transition of the concept, tagged with the acting person. -/
inductive RsvpOp where
  | indInterest (p : Nat)
  | remInterest (p : Nat)
  | indAttendance (p : Nat)
  | remAttendance (p : Nat)
deriving DecidableEq, Repr

/-- The record persisted after one RSVP method runs on an existing record
(none of the four methods can throw on an existing record, since the
guards are invoked without `await`; the error branch below is
unreachable and keeps the record). -/
def rsvpStep (event : EventDoc) : RsvpOp → EventDoc
  | RsvpOp.indInterest p =>
    match indicateInterest p (some event) with
    | Except.ok e => e
    | Except.error _ => event
  | RsvpOp.remInterest p =>
    match removeInterest p (some event) with
    | Except.ok e => e
    | Except.error _ => event
  | RsvpOp.indAttendance p =>
    match indicateAttendance p (some event) with
    | Except.ok e => e
    | Except.error _ => event
  | RsvpOp.remAttendance p =>
    match removeAttendance p (some event) with
    | Except.ok e => e
    | Except.error _ => event

/-- The record after a sequence of RSVP transitions. -/
def rsvpRun (event : EventDoc) : List RsvpOp → EventDoc
  | [] => event
  | op :: ops => rsvpRun (rsvpStep event op) ops

end EventConcept

namespace LocationConcept

/-- `geometry.location` of one geocoding candidate: the coordinate pair
(`lat`/`lng` in the provider response; coordinates are exact numerals in
the claims, modelled as rationals). -/
structure GeoLocation where
  lat : Rat
  lng : Rat
deriving DecidableEq, Repr

/-- One element of the `results` array of the provider (only the part the code
reads: `geometry.location`). -/
structure GeocodeResult where
  location : GeoLocation
deriving DecidableEq, Repr

/-- The parsed provider response body: `{ results: [...] }`. -/
structure GeocodeResponse where
  results : List GeocodeResult
deriving DecidableEq, Repr

/-- `getAddressLocation(address)` as a function of the parsed provider
response: throws `NotFoundError("Address Not Found")` when
`results.results.length === 0`, else returns
`results.results[0].geometry.location`. -/
def getAddressLocation (resp : GeocodeResponse) : Except Err GeoLocation :=
  match resp.results with
  | [] => Except.error Err.notFound
  | r :: _ => Except.ok r.location

end LocationConcept

/-! ### Shared lemmas and fixtures -/

/-- A freshly created event hosted by user 0 (the fixture the concrete
scenarios run on). -/
def ev0 : EventDoc := EventConcept.create 0 "t" "d" "loc" 18 50

instance exceptDecEq {ε α : Type} [DecidableEq ε] [DecidableEq α] :
    DecidableEq (Except ε α) := fun a b =>
  match a, b with
  | Except.error e₁, Except.error e₂ =>
    if h : e₁ = e₂ then isTrue (by rw [h])
    else isFalse (fun hc => h (by cases hc; rfl))
  | Except.error _, Except.ok _ => isFalse (fun hc => Except.noConfusion hc)
  | Except.ok _, Except.error _ => isFalse (fun hc => Except.noConfusion hc)
  | Except.ok x, Except.ok y =>
    if h : x = y then isTrue (by rw [h])
    else isFalse (fun hc => h (by cases hc; rfl))

namespace EventConcept

theorem any_key_chunk (c : Bool) (fld : EventField) (f : EventField → Bool) :
    (if c then [fld] else []).any f = (c && f fld) := by
  cases c <;> simp

theorem sanitizeUpdate_eq (u : EventUpdate) :
    sanitizeUpdate u =
      (if u.host.isSome then Except.error Err.notAllowed else Except.ok ()) := by
  unfold sanitizeUpdate keysOf
  cases hh : u.host <;>
    simp [List.any_append, any_key_chunk, prohibitedUpdates, hh]

/-! ### Claim theorems -/

/-- C1.  The RSVP exclusivity invariant of the spec fails on the code:
`indicateInterest(1, e)` then `indicateAttendance(1, e)` on a fresh event
leaves user 1 in `interested` and NOT in `attending` (the
`indicateAttendance` body splices the attending array at `interest_idx`
instead of removing from `interested`); and after `indicateInterest(1)`,
`indicateInterest(2)`, `indicateAttendance(2)` user 2 is in BOTH lists. -/
theorem c1_rsvp_exclusivity_fails :
    (rsvpRun ev0 [RsvpOp.indInterest 1, RsvpOp.indAttendance 1]).interested = [1] ∧
    (rsvpRun ev0 [RsvpOp.indInterest 1, RsvpOp.indAttendance 1]).attending = [] ∧
    2 ∈ (rsvpRun ev0
      [RsvpOp.indInterest 1, RsvpOp.indInterest 2, RsvpOp.indAttendance 2]).interested ∧
    2 ∈ (rsvpRun ev0
      [RsvpOp.indInterest 1, RsvpOp.indInterest 2, RsvpOp.indAttendance 2]).attending := by
  decide

/-- C2.  `removeAttendance` neither fails for a non-attendee (the
`isAttending` guard is invoked without `await`) nor removes an attendee:
on a fresh event it ADDS user 1 to `attending`, and on an event with
`attending = [1]` it duplicates the entry. -/
theorem c2_removeAttendance_fails :
    removeAttendance 1 (some ev0) = Except.ok { ev0 with attending := [1] } ∧
    removeAttendance 1 (some { ev0 with attending := [1] }) =
      Except.ok { ev0 with attending := [1, 1] } := by
  decide

/-- C3.  The host is not rejected by the RSVP transitions: the `isNotHost`
guard is invoked without `await` AND its condition is inverted (it
succeeds exactly when the user IS the host), so `indicateInterest` by the
host (user 0) of `ev0` succeeds and adds the host to `interested`, while a
non-host would be the one the guard rejects. -/
theorem c3_host_guard_fails :
    indicateInterest 0 (some ev0) = Except.ok { ev0 with interested := [0] } ∧
    isNotHost 0 (some ev0) = Except.ok () ∧
    isNotHost 1 (some ev0) = Except.error Err.notAllowed := by
  decide

/-- C4.  `removeInterest` for a person NOT in `interested` does not fail
(the `isInterested` guard is invoked without `await`) and mutates state:
with `interested = [2]`, `removeInterest(1, e)` splices at index `-1`,
deleting user 2 (the last entry) from `interested`. -/
theorem c4_removeInterest_fails :
    (1 : Nat) ∉ ({ ev0 with interested := [2] } : EventDoc).interested ∧
    removeInterest 1 (some { ev0 with interested := [2] }) =
      Except.ok { ev0 with interested := [] } := by
  decide

/-- C5.  The first `addTopic(e, "music")` on a fresh event (empty
`topics`) already fails with `NotAllowedError`: the guard tests
`topic.includes(topic)` — the string against itself, always true — so no
topic can ever be added. -/
theorem c5_addTopic_fails :
    ev0.topics = [] ∧
    addTopic (some ev0) "music" = Except.error Err.notAllowed := by
  decide

/-- C6.  Removing an ABSENT tag does not fail with `NotAllowedError`: the
guards test the tag string against itself (`!tag.includes(tag)`, always
false), and `indexOf` of the absent tag is `-1`, so `splice(-1, 1)`
deletes the LAST entry of the collection.  With all three collections
equal to `["a"]`, removing `"b"` succeeds and deletes `"a"`. -/
theorem c6_remove_absent_tag_fails :
    "b" ∉ ({ ev0 with topics := ["a"] } : EventDoc).topics ∧
    removeTopic (some { ev0 with topics := ["a"] }) "b" =
      Except.ok { ev0 with topics := [] } ∧
    removeAmenity (some { ev0 with amenities := ["a"] }) "b" =
      Except.ok { ev0 with amenities := [] } ∧
    removeAccommodation (some { ev0 with accommodations := ["a"] }) "b" =
      Except.ok { ev0 with accommodations := [] } := by
  decide

/-- C7.  `update(id, {host: X})` always fails with the forbidden-field
`NotAllowedError` (thrown by the synchronous `sanitizeUpdate` before
`updateOne` is issued), for any record state and any X, and the stored
record is unchanged. -/
theorem c7_update_host_forbidden (ev : Option EventDoc) (u : EventUpdate) (x : Nat)
    (h : u.host = some x) :
    update ev u = Except.error Err.notAllowed ∧ updateState ev u = ev := by
  have hs : sanitizeUpdate u = Except.error Err.notAllowed := by
    rw [sanitizeUpdate_eq, h]; rfl
  constructor
  · unfold update; rw [hs]
  · unfold updateState update; rw [hs]

/-- Witness for C7 at a concrete input: updating `ev0` with
`{host: 5}`. -/
theorem c7_witness :
    update (some ev0) { host := some 5 } = Except.error Err.notAllowed ∧
    updateState (some ev0) { host := some 5 } = some ev0 :=
  c7_update_host_forbidden (some ev0) { host := some 5 } 5 rfl

/-- C8 counterexample.  On an id that resolves to no record, `update` with
a host-free partial and `delete` both SUCCEED (the methods perform no
existence check; the modelled `updateOne`/`deleteOne` acknowledge
an absent record), instead of failing with `NotFoundError` as claimed. -/
theorem c8_missing_id_counterexample :
    update none { title := some "t2" } ≠ Except.error Err.notFound ∧
    update none { title := some "t2" } = Except.ok none ∧
    EventConcept.delete none ≠ Except.error Err.notFound ∧
    EventConcept.delete none = Except.ok none := by
  decide

/-- C8 amended.  On an id that resolves to no record, `update` with a
partial that does not include `host` returns the success ack and stores
nothing, and `delete` returns the success ack. -/
theorem c8_missing_id_amended (u : EventUpdate) (h : u.host = none) :
    update none u = Except.ok none ∧ EventConcept.delete none = Except.ok none := by
  have hs : sanitizeUpdate u = Except.ok () := by
    rw [sanitizeUpdate_eq, h]; rfl
  exact ⟨by simp only [update, updateOne, hs], rfl⟩

/-- Witness for the amended C8 at a concrete input: a title-only
partial. -/
theorem c8_amended_witness :
    update none { title := some "t2" } = Except.ok none ∧
    EventConcept.delete none = Except.ok none :=
  c8_missing_id_amended { title := some "t2" } rfl

/-- C10.  Only the `host` key is prohibited by `sanitizeUpdate`: any
partial without `host` — in particular one carrying `interested` and
`attending` — passes the forbidden-field check, and the generic update
path overwrites both RSVP lists with the supplied values. -/
theorem c10_update_overwrites_rsvp_lists (e : EventDoc) (u : EventUpdate)
    (h : u.host = none) :
    update (some e) u = Except.ok (some (applyUpdate e u)) ∧
    (applyUpdate e u).interested = u.interested.getD e.interested ∧
    (applyUpdate e u).attending = u.attending.getD e.attending := by
  have hs : sanitizeUpdate u = Except.ok () := by
    rw [sanitizeUpdate_eq, h]; rfl
  exact ⟨by unfold update updateOne; rw [hs], rfl, rfl⟩

/-- Witness for C10 at a concrete input: overwriting both RSVP lists of
`ev0` directly through `update`. -/
theorem c10_witness :
    update (some ev0) { interested := some [7], attending := some [8] } =
      Except.ok (some (applyUpdate ev0
        { interested := some [7], attending := some [8] })) ∧
    (applyUpdate ev0 { interested := some [7], attending := some [8] }).interested
      = [7] ∧
    (applyUpdate ev0 { interested := some [7], attending := some [8] }).attending
      = [8] :=
  c10_update_overwrites_rsvp_lists ev0
    { interested := some [7], attending := some [8] } rfl

end EventConcept

namespace LocationConcept

/-- C9.  `getAddressLocation` fails with `NotFoundError` exactly when the
provider response has zero candidate results, and otherwise returns the
coordinate pair of the first candidate. -/
theorem c9_resolve (resp : GeocodeResponse) :
    (getAddressLocation resp = Except.error Err.notFound ↔ resp.results = []) ∧
    (∀ r rest, resp.results = r :: rest →
      getAddressLocation resp = Except.ok r.location) := by
  obtain ⟨results⟩ := resp
  cases results with
  | nil => exact ⟨by simp [getAddressLocation], by intro r rest h; cases h⟩
  | cons r rest =>
    refine ⟨by simp [getAddressLocation], ?_⟩
    intro r' rest' h
    cases h
    rfl

/-- Witness for C9 at the stubs of the spec: one candidate with lat 37.42 and
lng -122.08 yields that pair; an empty results array yields NotFound. -/
theorem c9_witness :
    getAddressLocation ⟨[⟨⟨37.42, -122.08⟩⟩]⟩ =
      Except.ok ⟨(37.42 : Rat), (-122.08 : Rat)⟩ ∧
    getAddressLocation ⟨[]⟩ = Except.error Err.notFound :=
  ⟨(c9_resolve ⟨[⟨⟨37.42, -122.08⟩⟩]⟩).2 ⟨⟨37.42, -122.08⟩⟩ [] rfl,
   (c9_resolve ⟨[]⟩).1.mpr rfl⟩

end LocationConcept
